import Mathlib

/-!
Verification of the `snowoptics` library (snowoptics/snowoptics.py).

The Python source is elementwise real arithmetic over numpy arrays; we embed it
per wavelength over `ℝ`.  Python exceptions (`ValueError`, `AssertionError`,
`NotImplementedError`, `RuntimeError`) become `Except String`; the `np.nan`
sentinel used for physically undefined geometry becomes `Option` (`none` = NaN).

External collaborators from `refractive_index.py` (refice, refsoot_imag,
refhulis_imag, refdust_imag, MAE_dust_caponi) and the scipy optimizer are not
part of the source under verification; they are modelled as an abstract
`Collab` structure of pure functions, exactly as the spec treats them
(pure functions, out of scope).  `MAE_dust_caponi` may raise `ValueError` on an
unknown formulation, modelled by an `Option` result.
-/

namespace Snowoptics

noncomputable section

open Real

/-- External collaborators (refractive_index.py and friends), modelled
abstractly: each is a pure function of wavelength (imaginary refractive
index parts only, since the code only uses the imaginary part). -/
structure Collab where
  refice : ℝ → String → ℝ
  refsoot : ℝ → ℝ
  refhulis : ℝ → ℝ
  refdust_default : ℝ → ℝ
  refdust_skiles : ℝ → ℝ
  caponi : ℝ → String → Option ℝ

/-- `B=1.6` from the source header. -/
def default_B : ℝ := 1.6

/-- `g=0.845` from the source header. -/
def default_g : ℝ := 0.845

/-- One impurity-dict entry: species name, mass concentration, optional bulk
density (a bare concentration in Python is `density = none`). -/
abbrev Impurity := String × ℝ × Option ℝ

/-- The body of one iteration of the species loop of
`compute_co_single_scattering_albedo`: the term `2/ssa * content * MAC`
added to the accumulator, or the `ValueError` that iteration raises.
Mirrors the `if/elif` species chain of the source. -/
def impurity_contribution (C : Collab) (wavelengths ssa : ℝ)
    (species : String) (content : ℝ) (density : Option ℝ) : Except String ℝ :=
  if species = "soot" ∨ species = "BC" then
    let d := density.getD 1270
    .ok (2 / ssa * content * (6 * π / wavelengths / d * |C.refsoot wavelengths|))
  else if species = "hulis" then
    match density with
    | some d => .ok (2 / ssa * content * (6 * π / wavelengths / d * |C.refhulis wavelengths|))
    | none => .error ("No default density for the impurities " ++ species)
  else if species = "dust" then
    match density with
    | some d => .ok (2 / ssa * content * (6 * π / wavelengths / d * |C.refdust_default wavelengths|))
    | none => .error ("No default density for the impurities " ++ species)
  else if species = "dust_skiles" then
    match density with
    | some d => .ok (2 / ssa * content * (6 * π / wavelengths / d * |C.refdust_skiles wavelengths|))
    | none => .error ("No default density for the impurities " ++ species)
  else if species.take 5 = "dust_" then
    match C.caponi wavelengths (species.drop 5) with
    | some MAC => .ok (2 / ssa * content * MAC)
    | none => .error "Invalid species"
  else .error "Invalid species"

/-- The `for species in impurities` accumulation loop of
`compute_co_single_scattering_albedo` (`cossalb += 2/ssa * content * MAC`). -/
def cossalb_loop (C : Collab) (wavelengths ssa : ℝ) :
    ℝ → List Impurity → Except String ℝ
  | acc, [] => .ok acc
  | acc, (s, c, d) :: rest =>
    match impurity_contribution C wavelengths ssa s c d with
    | .error e => .error e
    | .ok t => cossalb_loop C wavelengths ssa (acc + t) rest

/-- `compute_co_single_scattering_albedo`: ice-absorption baseline
`2/(ssa·917)·B·(4π·ni/λ)` plus the impurity loop.  `ni` is either a dataset
name (resolved through the `refice` collaborator) or a precomputed value. -/
def compute_co_single_scattering_albedo (C : Collab) (wavelengths ssa : ℝ)
    (impurities : Option (List Impurity)) (ni : String ⊕ ℝ) (B g : ℝ) :
    Except String ℝ :=
  let niv := match ni with
    | .inl dataset_name => C.refice wavelengths dataset_name
    | .inr v => v
  let gamma := 4 * π * niv / wavelengths
  let cossalb := 2.0 / (ssa * 917.0) * B * gamma
  match impurities with
  | none => .ok cossalb
  | some l => cossalb_loop C wavelengths ssa cossalb l

/-- `compute_alpha`: `16/3 · cossalb / (1 − g)`. -/
def compute_alpha (C : Collab) (wavelengths ssa : ℝ)
    (impurities : Option (List Impurity)) (ni : String ⊕ ℝ) (B g : ℝ) :
    Except String ℝ :=
  (compute_co_single_scattering_albedo C wavelengths ssa impurities ni B g).map
    (fun cossalb => 16 / 3 * cossalb / (1 - g))

/-- `albedo_diffuse_KZ04`: `exp(−sqrt(alpha))`. -/
def albedo_diffuse_KZ04 (C : Collab) (wavelengths ssa : ℝ)
    (impurities : Option (List Impurity)) (ni : String ⊕ ℝ) (B g : ℝ) :
    Except String ℝ :=
  (compute_alpha C wavelengths ssa impurities ni B g).map
    (fun alpha => exp (-sqrt alpha))

/-- `albedo_direct_KZ04`: `exp(−sqrt(alpha)·3/7·(1+2·cos sza))`; the
`assert cos_sza >= 0` of the source is a hard error. -/
def albedo_direct_KZ04 (C : Collab) (wavelengths sza ssa : ℝ)
    (impurities : Option (List Impurity)) (ni : String ⊕ ℝ) (B g : ℝ) :
    Except String ℝ :=
  match compute_alpha C wavelengths ssa impurities ni B g with
  | .error e => .error e
  | .ok alpha =>
    if cos sza < 0 then .error "assert cos_sza >= 0"
    else .ok (exp (-sqrt alpha * 3.0 / 7 * (1 + 2 * cos sza)))

/-- `albedo_KZ04`: `(1 − r_difftot)·direct + r_difftot·diffuse`. -/
def albedo_KZ04 (C : Collab) (wavelengths sza ssa r_difftot : ℝ)
    (impurities : Option (List Impurity)) (ni : String ⊕ ℝ) (B g : ℝ) :
    Except String ℝ :=
  match albedo_direct_KZ04 C wavelengths sza ssa impurities ni B g with
  | .error e => .error e
  | .ok dir =>
    match albedo_diffuse_KZ04 C wavelengths ssa impurities ni B g with
    | .error e => .error e
    | .ok diff => .ok ((1 - r_difftot) * dir + r_difftot * diff)

/-- The function `G` of Malinka 2016: `3/7·(1+2·cos θ)`. -/
def G (theta : ℝ) : ℝ := 3 / 7 * (1 + 2 * cos theta)

/-- `albedo_direct_M16`: `exp(−y·G(sza))` with
`y = 4·sqrt((1−w0)/(3·(1−w0·g)))`, `w0 = 1 − cossalb`. -/
def albedo_direct_M16 (C : Collab) (wavelengths sza ssa : ℝ)
    (impurities : Option (List Impurity)) (ni : String ⊕ ℝ) (B g : ℝ) :
    Except String ℝ :=
  (compute_co_single_scattering_albedo C wavelengths ssa impurities ni B g).map
    (fun cossalb =>
      let w0 := 1 - cossalb
      let y := 4 * sqrt ((1 - w0) / (3 * (1 - w0 * g)))
      exp (-(y * G sza)))

/-- `albedo_diffuse_M16`: `exp(−y)`. -/
def albedo_diffuse_M16 (C : Collab) (wavelengths ssa : ℝ)
    (impurities : Option (List Impurity)) (ni : String ⊕ ℝ) (B g : ℝ) :
    Except String ℝ :=
  (compute_co_single_scattering_albedo C wavelengths ssa impurities ni B g).map
    (fun cossalb =>
      let w0 := 1 - cossalb
      let y := 4 * sqrt ((1 - w0) / (3 * (1 - w0 * g)))
      exp (-y))

/-- `albedo_M16`: `(1 − r_difftot)·direct + r_difftot·diffuse`. -/
def albedo_M16 (C : Collab) (wavelengths sza ssa r_difftot : ℝ)
    (impurities : Option (List Impurity)) (ni : String ⊕ ℝ) (B g : ℝ) :
    Except String ℝ :=
  match albedo_direct_M16 C wavelengths sza ssa impurities ni B g with
  | .error e => .error e
  | .ok dir =>
    match albedo_diffuse_M16 C wavelengths ssa impurities ni B g with
    | .error e => .error e
    | .ok diff => .ok ((1 - r_difftot) * dir + r_difftot * diff)

/-- `local_sza`: effective solar zenith angle on a slope,
`arccos(cos sza·cos slope + sin sza·sin slope·cos(saa − aspect))`. -/
def local_sza (sza saa slope aspect : ℝ) : ℝ :=
  arccos (cos sza * cos slope + sin sza * sin slope * cos (saa - aspect))

/-- `local_viewing_angle`: local incidence zenith, local viewing zenith and
local relative azimuth on a slope (Dumont et al. 2011).  `none` models the
`np.nan` sentinel; NaN propagation through the azimuth arithmetic (a NaN
zenith makes the denominator NaN, hence `mu_az` and `raa_eff` NaN) is modelled
by returning `none` for the azimuth whenever either local zenith is `none`. -/
def local_viewing_angle (theta_i phi_i theta_v phi_v slope aspect : ℝ) :
    Option ℝ × Option ℝ × Option ℝ :=
  let mu_i_raw := cos theta_i * cos slope + sin theta_i * sin slope * cos (phi_i - aspect)
  let mu_i : Option ℝ := if mu_i_raw < 0.000001 then none else some mu_i_raw
  let mu_v := cos theta_v * cos slope + sin theta_v * sin slope * cos (phi_v - aspect)
  let theta_i_eff : Option ℝ := mu_i.map arccos
  let theta_v_eff : Option ℝ :=
    if arccos mu_v > π / 2 then none else some (arccos mu_v)
  let raa_eff : Option ℝ :=
    match mu_i, theta_v_eff with
    | some mi, some tv =>
      let mu_az_numerator :=
        cos theta_v * cos theta_i + sin theta_v * sin theta_i * cos (phi_v - phi_i) - mi * mu_v
      let mu_az_denominator := sin (arccos mi) * sin tv
      let mu_az := if mu_az_denominator ≠ 0 then mu_az_numerator / mu_az_denominator else 0
      some (arccos (max (-1) (min 1 mu_az)))
    | _, _ => none
  (theta_i_eff, theta_v_eff, raa_eff)

/-- The `Adir`/`Adiff` per-model `elif` chain of `albedo_P20_slope`
(lines following the recursion branch), together with the final mixing
`(1 − r)·Adir + r·Adiff` and the negative-albedo NaN clip.
`.error` models `NotImplementedError` (self-shadow for `"DM"`/`"SM"`) and
`ValueError` (unknown model name). -/
def P20_plain (model : String) (r_difftot K V M alb_loc_dir alb_dir alb_diff : ℝ) :
    Except String (Option ℝ) :=
  let AdirAdiff : Except String (ℝ × ℝ) :=
    if model = "small_slope" then .ok (K * alb_loc_dir, alb_diff)
    else if model = "DT" then .ok (V * K * alb_loc_dir, V ^ 2 * alb_diff)
    else if model = "DM" then
      if K = 0 then .error "Incorrect in the self-shadow"
      else .ok (V / (1 + M) * K * alb_loc_dir, V / (1 + M) * alb_diff)
    else if model = "ST" then
      .ok (((V + M * (1 - V)) * K * alb_loc_dir + (M * V + (1 - V)) * alb_dir) / (1 - M ^ 2),
           V / (1 - M) * alb_diff)
    else if model = "SM" then
      if K = 0 then .error "Incorrect in the self-shadow"
      else .ok (V / (1 + M) * K * alb_loc_dir + (1 - V) / (1 + M) * alb_dir, alb_diff)
    else if model = "flat" then .ok (alb_dir, alb_diff)
    else .error "Invalid slope model"
  match AdirAdiff with
  | .error e => .error e
  | .ok (Adir, Adiff) =>
    let alpha := (1 - r_difftot) * Adir + r_difftot * Adiff
    .ok (if alpha < 0 then none else some alpha)

/-- The `"DM"`/`"SM"` branch of `albedo_P20_slope` taken when the diffuse
fraction is not directly measured: combine the recursively computed
top-of-hill albedo (`top`) through the closed-form multiple-reflection
coupling, with the two self-shadow fallbacks keyed on `K > 0` and
`r_difftot > 0`.  A NaN (`none`) top albedo propagates through the `K > 0`
arithmetic but is ignored by the fallback branches, exactly as in the
source. -/
def P20_coupled (model : String) (r_difftot K V M alb_loc_dir alb_dir alb_diff : ℝ)
    (top : Except String (Option ℝ)) : Except String (Option ℝ) :=
  match top with
  | .error e => .error e
  | .ok albedo_top =>
    if model = "DM" then
      if K > 0 then
        .ok (albedo_top.map (fun t => t / (1 - (1 - V) * r_difftot + (1 - V) / V * t)))
      else if r_difftot > 0 then .ok (some (V * alb_diff / (1 + M)))
      else .ok none
    else if model = "SM" then
      if K > 0 then
        .ok (albedo_top.map (fun t => t /
              (1 + (1 - V) *
                ((1 - r_difftot) * (K * alb_loc_dir + M * alb_dir) / (1 - M ^ 2) +
                 r_difftot * (V / (1 - M) * alb_diff - 1)))))
      else if r_difftot > 0 then .ok (some alb_diff)
      else .ok none
    else .error "should not be here"

/-- The three base albedos of `albedo_P20_slope` — direct at the local SZA,
direct at the true SZA, diffuse — either computed through KZ04 or all equal
to the fixed flat albedo override.  Python's `if fixed_flat_albedo:`
truthiness (both `None` and `0.0` are falsy) is modelled by the
`match`/`if a = 0` combination. -/
def P20_albs (C : Collab) (wavelengths lsza sza ssa : ℝ)
    (fixed_flat_albedo : Option ℝ) (impurities : Option (List Impurity))
    (ni : String ⊕ ℝ) (B g : ℝ) : Except String (ℝ × ℝ × ℝ) :=
  let computed_albs : Except String (ℝ × ℝ × ℝ) :=
    match albedo_direct_KZ04 C wavelengths lsza ssa impurities ni B g,
          albedo_direct_KZ04 C wavelengths sza ssa impurities ni B g,
          albedo_diffuse_KZ04 C wavelengths ssa impurities ni B g with
    | .error e, _, _ => .error e
    | .ok _, .error e, _ => .error e
    | .ok _, .ok _, .error e => .error e
    | .ok alb_loc_dir, .ok alb_dir, .ok alb_diff => .ok (alb_loc_dir, alb_dir, alb_diff)
  match fixed_flat_albedo with
  | none => computed_albs
  | some a => if a = 0 then computed_albs else .ok (a, a, a)

/-- `albedo_P20_slope` (Picard et al. 2020 sloped-terrain albedo).
`none` in the result models the `np.nan` sentinel; `Except.error` models the
exceptions (`AssertionError` via the KZ04 direct albedo, `NotImplementedError`
in the self-shadow case, `ValueError` for an invalid model name,
`RuntimeError "should not be here"`).  Python's `if fixed_flat_albedo:`
truthiness (both `None` and `0.0` are falsy) is modelled by the
`match`/`if a = 0` combination.  The recursion of the source (`"DM"`/`"SM"`
calling back with the corresponding top-of-hill model) is literal; it
terminates because the substituted model name is never `"DM"`/`"SM"`. -/
def albedo_P20_slope (C : Collab) (wavelengths sza saa ssa r_difftot slope aspect : ℝ)
    (model : String) (measured_difftot : Bool) (fixed_flat_albedo : Option ℝ)
    (impurities : Option (List Impurity)) (ni : String ⊕ ℝ) (B g : ℝ) :
    Except String (Option ℝ) :=
  let lsza := local_sza sza saa slope aspect
  if lsza ≥ π / 2 ∨ lsza < 0 then .ok none
  else
    match P20_albs C wavelengths lsza sza ssa fixed_flat_albedo impurities ni B g with
    | .error e => .error e
    | .ok (alb_loc_dir, alb_dir, alb_diff) =>
      let K := max (cos lsza / cos sza) 0
      let V := (1 + cos slope) / 2
      let M := (1 - V) * alb_diff
      if h : measured_difftot = false ∧ (model = "DM" ∨ model = "SM") then
        P20_coupled model r_difftot K V M alb_loc_dir alb_dir alb_diff
          (albedo_P20_slope C wavelengths sza saa ssa r_difftot slope aspect
            (model.dropRight 1 ++ "T") false fixed_flat_albedo impurities ni B g)
      else
        P20_plain model r_difftot K V M alb_loc_dir alb_dir alb_diff
termination_by (if measured_difftot = false ∧ (model = "DM" ∨ model = "SM") then 1 else 0)
decreasing_by
  rcases h with ⟨hm, hd | hd⟩ <;> subst hd <;> subst hm <;> exact Nat.zero_lt_one

/-- Python `np.mod` for real arguments: `x − m·⌊x/m⌋`. -/
def npmod (x m : ℝ) : ℝ := x - m * ⌊x / m⌋

/-- The result post-processing of `albedo_timeseries_correction`: the scipy
optimizer (an external collaborator, spec §6) produced the parameter vector
`optResult = [slope, aspect, *albedo_diff]`; the source then flips a negative
slope (rotating the aspect by π) and wraps the aspect modulo 2π. -/
def albedo_timeseries_correction (optResult : List ℝ) : List ℝ × ℝ × ℝ :=
  let albedo_diff := optResult.drop 2
  let slope := optResult.getD 0 0
  let aspect := optResult.getD 1 0
  let slope_aspect := if slope < 0 then (-slope, aspect + π) else (slope, aspect)
  (albedo_diff, slope_aspect.1, npmod slope_aspect.2 (2 * π))

/-- The common tail of `brf0_KB12` once the relative azimuth convention has
fixed `new_phi`: scattering angle in degrees via the spherical law of cosines
(with the `np.clip` guard), the two-exponential phase function and the
`r0` polynomial. -/
def brf0_KB12_val (theta_i theta_v new_phi : ℝ) : ℝ :=
  let theta := (arccos (max (-1) (min 1
      (-cos theta_i * cos theta_v + sin theta_i * sin theta_v * cos new_phi)))) * (180 / π)
  let phase := 11.1 * exp (-0.087 * theta) + 1.1 * exp (-0.014 * theta)
  let rr := 1.247 + 1.186 * (cos theta_i + cos theta_v) +
      5.157 * (cos theta_i * cos theta_v) + phase
  rr / (4 * (cos theta_i + cos theta_v))

/-- `brf0_KB12` (Kokhanovsky and Breon 2012 zero-order BRF): dispatch on the
azimuth convention (`np.pi - phi` for `"angular"`, `phi` for `"vectorial"`,
`ValueError` otherwise), then `brf0_KB12_val`. -/
def brf0_KB12 (theta_i theta_v phi : ℝ) (RAA_formalism : String) : Except String ℝ :=
  if RAA_formalism = "angular" then .ok (brf0_KB12_val theta_i theta_v (π - phi))
  else if RAA_formalism = "vectorial" then .ok (brf0_KB12_val theta_i theta_v phi)
  else .error "Invalid RAA_formalism in brf0"

/-- Species whose branch of `compute_co_single_scattering_albedo` sets
`abs_impurities` but has no default density: a bare concentration for these
raises `"No default density for the impurities ..."`. -/
def density_required (s : String) : Prop :=
  s = "hulis" ∨ s = "dust" ∨ s = "dust_skiles"

/-- Species names the impurity chain rejects with `ValueError("Invalid
species")`: not one of the recognized names, and if of the form
`dust_<formulation>`, the `MAE_dust_caponi` collaborator rejects the
formulation. -/
def invalid_species (C : Collab) (wavelengths : ℝ) (s : String) : Prop :=
  ¬(s = "soot" ∨ s = "BC" ∨ s = "hulis" ∨ s = "dust" ∨ s = "dust_skiles") ∧
    (s.take 5 = "dust_" → C.caponi wavelengths (s.drop 5) = none)

/-- The impurity-dict entries on which the species loop raises. -/
def entry_raises (C : Collab) (wavelengths : ℝ) (e : Impurity) : Prop :=
  invalid_species C wavelengths e.1 ∨ (density_required e.1 ∧ e.2.2 = none)

/-- A trivial concrete collaborator assignment (all imaginary refractive
indices zero, no caponi formulation recognized), used to instantiate
theorems at concrete inputs. -/
def C0 : Collab where
  refice := fun _ _ => 0
  refsoot := fun _ => 0
  refhulis := fun _ => 0
  refdust_default := fun _ => 0
  refdust_skiles := fun _ => 0
  caponi := fun _ _ => none

/-! ## Helper lemmas -/

lemma local_sza_nonneg (sza saa slope aspect : ℝ) :
    0 ≤ local_sza sza saa slope aspect :=
  arccos_nonneg _

lemma dropRight_DM : "DM".dropRight 1 ++ "T" = "DT" := by decide

lemma dropRight_SM : "SM".dropRight 1 ++ "T" = "ST" := by decide

lemma npmod_eq_mul_fract (x m : ℝ) (hm : m ≠ 0) :
    npmod x m = m * Int.fract (x / m) := by
  unfold npmod
  rw [← Int.self_sub_floor]
  field_simp

lemma npmod_nonneg (x m : ℝ) (hm : 0 < m) : 0 ≤ npmod x m := by
  rw [npmod_eq_mul_fract x m hm.ne.symm]
  exact mul_nonneg hm.le (Int.fract_nonneg _)

lemma npmod_lt (x m : ℝ) (hm : 0 < m) : npmod x m < m := by
  rw [npmod_eq_mul_fract x m hm.ne.symm]
  calc m * Int.fract (x / m) < m * 1 := by
        exact mul_lt_mul_of_pos_left (Int.fract_lt_one _) hm
    _ = m := mul_one m

lemma impurity_contribution_error_iff (C : Collab) (wl ssa : ℝ)
    (s : String) (c : ℝ) (d : Option ℝ) :
    (∃ msg, impurity_contribution C wl ssa s c d = .error msg) ↔
      entry_raises C wl (s, c, d) := by
  unfold impurity_contribution entry_raises invalid_species density_required
  have hnotor : ¬(s = "soot" ∨ s = "BC") → ¬s = "hulis" → ¬s = "dust" →
      ¬s = "dust_skiles" →
      ¬(s = "soot" ∨ s = "BC" ∨ s = "hulis" ∨ s = "dust" ∨ s = "dust_skiles") := by
    intro h1 h2 h3 h4 hor
    rcases hor with h | h | h | h | h
    · exact h1 (Or.inl h)
    · exact h1 (Or.inr h)
    · exact h2 h
    · exact h3 h
    · exact h4 h
  split_ifs with h1 h2 h3 h4 h5
  · rcases h1 with h | h <;> subst h <;> simp
  · subst h2; cases d <;> simp
  · subst h3; cases d <;> simp
  · subst h4; cases d <;> simp
  · cases hcap : C.caponi wl (s.drop 5)
    · constructor
      · intro _
        exact Or.inl ⟨hnotor h1 h2 h3 h4, fun _ => rfl⟩
      · intro _
        exact ⟨"Invalid species", rfl⟩
    · apply iff_of_false
      · rintro ⟨msg, hmsg⟩
        exact Except.noConfusion hmsg
      · rintro (⟨_, himp⟩ | ⟨hdr, _⟩)
        · exact Option.noConfusion (himp h5)
        · rcases hdr with h | h | h
          · exact h2 h
          · exact h3 h
          · exact h4 h
  · constructor
    · intro _
      exact Or.inl ⟨hnotor h1 h2 h3 h4, fun hsw => absurd hsw h5⟩
    · intro _
      exact ⟨"Invalid species", rfl⟩

lemma cossalb_loop_error_iff (C : Collab) (wl ssa : ℝ)
    (L : List Impurity) (acc : ℝ) :
    (∃ msg, cossalb_loop C wl ssa acc L = .error msg) ↔
      ∃ e ∈ L, ∃ msg, impurity_contribution C wl ssa e.1 e.2.1 e.2.2 = .error msg := by
  induction L generalizing acc with
  | nil => simp [cossalb_loop]
  | cons e rest ih =>
    obtain ⟨s, c, d⟩ := e
    cases hcon : impurity_contribution C wl ssa s c d with
    | error m => simp [cossalb_loop, hcon]
    | ok t => simp [cossalb_loop, hcon, ih]

lemma cossalb_loop_shift (C : Collab) (wl ssa : ℝ) (L : List Impurity)
    (acc t : ℝ) :
    cossalb_loop C wl ssa (acc + t) L =
      (cossalb_loop C wl ssa acc L).map (· + t) := by
  induction L generalizing acc with
  | nil => simp [cossalb_loop, Except.map]
  | cons e rest ih =>
    obtain ⟨s, c, d⟩ := e
    cases hcon : impurity_contribution C wl ssa s c d with
    | error m => simp [cossalb_loop, hcon, Except.map]
    | ok u =>
      simp only [cossalb_loop, hcon]
      rw [show acc + t + u = acc + u + t by ring, ih]

lemma cossalb_loop_append (C : Collab) (wl ssa : ℝ) (P Q : List Impurity)
    (acc : ℝ) :
    cossalb_loop C wl ssa acc (P ++ Q) =
      match cossalb_loop C wl ssa acc P with
      | .error e => .error e
      | .ok m => cossalb_loop C wl ssa m Q := by
  induction P generalizing acc with
  | nil => simp [cossalb_loop]
  | cons e rest ih =>
    obtain ⟨s, c, d⟩ := e
    cases hcon : impurity_contribution C wl ssa s c d with
    | error m => simp [cossalb_loop, hcon]
    | ok u =>
      simp only [List.cons_append, cossalb_loop, hcon]
      exact ih (acc + u)

/-- The per-entry term `2/ssa · content · MAC` is monotone in the content
when the wavelength and SSA are positive, any explicit density is positive
and the caponi mass-absorption efficiencies are nonnegative. -/
lemma impurity_contribution_mono (C : Collab) (wl ssa : ℝ) (s : String)
    (d : Option ℝ) (c1 c2 t1 t2 : ℝ)
    (hwl : 0 < wl) (hssa : 0 < ssa) (hc : c1 ≤ c2)
    (hd : ∀ ρ, d = some ρ → 0 < ρ)
    (hcap : ∀ f v, C.caponi wl f = some v → 0 ≤ v)
    (h1 : impurity_contribution C wl ssa s c1 d = .ok t1)
    (h2 : impurity_contribution C wl ssa s c2 d = .ok t2) : t1 ≤ t2 := by
  have hstep : ∀ MAC : ℝ, 0 ≤ MAC →
      2 / ssa * c1 * MAC ≤ 2 / ssa * c2 * MAC := by
    intro MAC hMAC
    have h2ssa : (0 : ℝ) ≤ 2 / ssa := by positivity
    exact mul_le_mul_of_nonneg_right (mul_le_mul_of_nonneg_left hc h2ssa) hMAC
  have habs : ∀ f : ℝ → ℝ, ∀ dd : ℝ, 0 < dd → (0:ℝ) ≤ 6 * π / wl / dd * |f wl| := by
    intro f dd hdd
    have : (0:ℝ) ≤ 6 * π / wl / dd := by positivity
    exact mul_nonneg this (abs_nonneg _)
  unfold impurity_contribution at h1 h2
  split_ifs at h1 h2 with hb1 hb2 hb3 hb4 hb5
  · have hdd : 0 < (d.getD 1270 : ℝ) := by
      cases hd2 : d with
      | none => norm_num
      | some ρ => simpa using hd ρ hd2
    rw [Except.ok.injEq] at h1 h2
    rw [← h1, ← h2]
    exact hstep _ (habs C.refsoot _ hdd)
  · cases hd2 : d with
    | none => rw [hd2] at h1; exact Except.noConfusion h1
    | some ρ =>
      rw [hd2] at h1 h2
      rw [Except.ok.injEq] at h1 h2
      rw [← h1, ← h2]
      exact hstep _ (habs C.refhulis _ (hd ρ hd2))
  · cases hd2 : d with
    | none => rw [hd2] at h1; exact Except.noConfusion h1
    | some ρ =>
      rw [hd2] at h1 h2
      rw [Except.ok.injEq] at h1 h2
      rw [← h1, ← h2]
      exact hstep _ (habs C.refdust_default _ (hd ρ hd2))
  · cases hd2 : d with
    | none => rw [hd2] at h1; exact Except.noConfusion h1
    | some ρ =>
      rw [hd2] at h1 h2
      rw [Except.ok.injEq] at h1 h2
      rw [← h1, ← h2]
      exact hstep _ (habs C.refdust_skiles _ (hd ρ hd2))
  · cases hcap2 : C.caponi wl (s.drop 5) with
    | none => rw [hcap2] at h1; exact Except.noConfusion h1
    | some v =>
      rw [hcap2] at h1 h2
      rw [Except.ok.injEq] at h1 h2
      rw [← h1, ← h2]
      exact hstep _ (hcap _ v hcap2)

/-- Monotonicity of the accumulation loop in one entry's concentration,
for an arbitrary starting accumulator. -/
lemma cossalb_loop_mono_single (C : Collab) (wl ssa : ℝ)
    (P Q : List Impurity) (s : String) (d : Option ℝ) (c1 c2 a1 a2 base : ℝ)
    (hwl : 0 < wl) (hssa : 0 < ssa) (hc : c1 ≤ c2)
    (hd : ∀ ρ, d = some ρ → 0 < ρ)
    (hcap : ∀ f v, C.caponi wl f = some v → 0 ≤ v)
    (h1 : cossalb_loop C wl ssa base (P ++ (s, c1, d) :: Q) = .ok a1)
    (h2 : cossalb_loop C wl ssa base (P ++ (s, c2, d) :: Q) = .ok a2) :
    a1 ≤ a2 := by
  rw [cossalb_loop_append] at h1 h2
  cases hP : cossalb_loop C wl ssa base P with
  | error m => rw [hP] at h1; exact Except.noConfusion h1
  | ok m =>
    rw [hP] at h1 h2
    simp only [cossalb_loop] at h1 h2
    cases hcon1 : impurity_contribution C wl ssa s c1 d with
    | error e => rw [hcon1] at h1; exact Except.noConfusion h1
    | ok t1 =>
      cases hcon2 : impurity_contribution C wl ssa s c2 d with
      | error e => rw [hcon2] at h2; exact Except.noConfusion h2
      | ok t2 =>
        rw [hcon1] at h1
        rw [hcon2] at h2
        dsimp only at h1 h2
        rw [cossalb_loop_shift] at h1 h2
        cases hQ : cossalb_loop C wl ssa m Q with
        | error e =>
          rw [hQ] at h1
          exact Except.noConfusion h1
        | ok S =>
          rw [hQ] at h1 h2
          simp only [Except.map] at h1 h2
          rw [Except.ok.injEq] at h1 h2
          have hmono := impurity_contribution_mono C wl ssa s d c1 c2 t1 t2
            hwl hssa hc hd hcap hcon1 hcon2
          rw [← h1, ← h2]
          linarith

/-- Each successful impurity term is nonnegative under valid inputs. -/
lemma impurity_contribution_nonneg (C : Collab) (wl ssa : ℝ) (s : String)
    (c : ℝ) (d : Option ℝ) (t : ℝ)
    (hwl : 0 < wl) (hssa : 0 < ssa) (hc : 0 ≤ c)
    (hd : ∀ ρ, d = some ρ → 0 < ρ)
    (hcap : ∀ f v, C.caponi wl f = some v → 0 ≤ v)
    (h : impurity_contribution C wl ssa s c d = .ok t) : 0 ≤ t := by
  have hstep : ∀ MAC : ℝ, 0 ≤ MAC → (0:ℝ) ≤ 2 / ssa * c * MAC := by
    intro MAC hMAC
    have h2ssa : (0 : ℝ) ≤ 2 / ssa := by positivity
    exact mul_nonneg (mul_nonneg h2ssa hc) hMAC
  have habs : ∀ f : ℝ → ℝ, ∀ dd : ℝ, 0 < dd → (0:ℝ) ≤ 6 * π / wl / dd * |f wl| := by
    intro f dd hdd
    have : (0:ℝ) ≤ 6 * π / wl / dd := by positivity
    exact mul_nonneg this (abs_nonneg _)
  unfold impurity_contribution at h
  split_ifs at h with hb1 hb2 hb3 hb4 hb5
  · have hdd : 0 < (d.getD 1270 : ℝ) := by
      cases hd2 : d with
      | none => norm_num
      | some ρ => simpa using hd ρ hd2
    rw [Except.ok.injEq] at h
    rw [← h]
    exact hstep _ (habs C.refsoot _ hdd)
  · cases hd2 : d with
    | none => rw [hd2] at h; exact Except.noConfusion h
    | some ρ =>
      rw [hd2] at h
      rw [Except.ok.injEq] at h
      rw [← h]
      exact hstep _ (habs C.refhulis _ (hd ρ hd2))
  · cases hd2 : d with
    | none => rw [hd2] at h; exact Except.noConfusion h
    | some ρ =>
      rw [hd2] at h
      rw [Except.ok.injEq] at h
      rw [← h]
      exact hstep _ (habs C.refdust_default _ (hd ρ hd2))
  · cases hd2 : d with
    | none => rw [hd2] at h; exact Except.noConfusion h
    | some ρ =>
      rw [hd2] at h
      rw [Except.ok.injEq] at h
      rw [← h]
      exact hstep _ (habs C.refdust_skiles _ (hd ρ hd2))
  · cases hcap2 : C.caponi wl (s.drop 5) with
    | none => rw [hcap2] at h; exact Except.noConfusion h
    | some v =>
      rw [hcap2] at h
      rw [Except.ok.injEq] at h
      rw [← h]
      exact hstep _ (hcap _ v hcap2)

/-- A successful accumulation loop never decreases the accumulator
under valid inputs. -/
lemma cossalb_loop_le (C : Collab) (wl ssa : ℝ) (L : List Impurity)
    (acc a : ℝ)
    (hwl : 0 < wl) (hssa : 0 < ssa)
    (hL : ∀ e ∈ L, 0 ≤ e.2.1 ∧ ∀ ρ, e.2.2 = some ρ → 0 < ρ)
    (hcap : ∀ f v, C.caponi wl f = some v → 0 ≤ v)
    (h : cossalb_loop C wl ssa acc L = .ok a) : acc ≤ a := by
  induction L generalizing acc with
  | nil =>
    simp only [cossalb_loop, Except.ok.injEq] at h
    exact le_of_eq h
  | cons e rest ih =>
    obtain ⟨s, c, d⟩ := e
    simp only [cossalb_loop] at h
    cases hcon : impurity_contribution C wl ssa s c d with
    | error m => rw [hcon] at h; exact Except.noConfusion h
    | ok t =>
      rw [hcon] at h
      dsimp only at h
      have he := hL (s, c, d) (List.mem_cons_self _ _)
      have ht : 0 ≤ t :=
        impurity_contribution_nonneg C wl ssa s c d t hwl hssa he.1 he.2 hcap hcon
      have hrest := ih (acc + t) (fun e he2 => hL e (List.mem_cons_of_mem _ he2)) h
      linarith

section KZ04Eval

variable (C : Collab) (wl sza ssa : ℝ) (imps : Option (List Impurity))
variable (ni : String ⊕ ℝ) (B g c : ℝ)

lemma albedo_diffuse_KZ04_eval
    (hok : compute_co_single_scattering_albedo C wl ssa imps ni B g = .ok c) :
    albedo_diffuse_KZ04 C wl ssa imps ni B g =
      .ok (exp (-sqrt (16 / 3 * c / (1 - g)))) := by
  simp [albedo_diffuse_KZ04, compute_alpha, hok, Except.map]

lemma albedo_direct_KZ04_eval (hcs : 0 ≤ cos sza)
    (hok : compute_co_single_scattering_albedo C wl ssa imps ni B g = .ok c) :
    albedo_direct_KZ04 C wl sza ssa imps ni B g =
      .ok (exp (-sqrt (16 / 3 * c / (1 - g)) * (3 / 7) * (1 + 2 * cos sza))) := by
  have halpha : compute_alpha C wl ssa imps ni B g = .ok (16 / 3 * c / (1 - g)) := by
    simp [compute_alpha, hok, Except.map]
  simp only [albedo_direct_KZ04, halpha, not_lt.mpr hcs, if_false]
  rw [Except.ok.injEq]
  congr 1
  ring

lemma albedo_direct_KZ04_assert (hcs : cos sza < 0)
    (hok : compute_co_single_scattering_albedo C wl ssa imps ni B g = .ok c) :
    albedo_direct_KZ04 C wl sza ssa imps ni B g = .error "assert cos_sza >= 0" := by
  have halpha : compute_alpha C wl ssa imps ni B g = .ok (16 / 3 * c / (1 - g)) := by
    simp [compute_alpha, hok, Except.map]
  simp only [albedo_direct_KZ04, halpha, if_pos hcs]

lemma albedo_KZ04_eval (r : ℝ) (hcs : 0 ≤ cos sza)
    (hok : compute_co_single_scattering_albedo C wl ssa imps ni B g = .ok c) :
    albedo_KZ04 C wl sza ssa r imps ni B g =
      .ok ((1 - r) * exp (-sqrt (16 / 3 * c / (1 - g)) * (3 / 7) * (1 + 2 * cos sza)) +
           r * exp (-sqrt (16 / 3 * c / (1 - g)))) := by
  simp only [albedo_KZ04, albedo_direct_KZ04_eval C wl sza ssa imps ni B g c hcs hok,
    albedo_diffuse_KZ04_eval C wl ssa imps ni B g c hok]

/-- When the co-single-scattering albedo computation raises, every KZ04
albedo raises with the same message. -/
lemma albedo_KZ04_error (r : ℝ) (m : String)
    (herr : compute_co_single_scattering_albedo C wl ssa imps ni B g = .error m) :
    albedo_direct_KZ04 C wl sza ssa imps ni B g = .error m ∧
    albedo_diffuse_KZ04 C wl ssa imps ni B g = .error m ∧
    albedo_KZ04 C wl sza ssa r imps ni B g = .error m := by
  have halpha : compute_alpha C wl ssa imps ni B g = .error m := by
    simp [compute_alpha, herr, Except.map]
  refine ⟨?_, ?_, ?_⟩
  · simp only [albedo_direct_KZ04, halpha]
  · simp [albedo_diffuse_KZ04, halpha, Except.map]
  · have h1 : albedo_direct_KZ04 C wl sza ssa imps ni B g = .error m := by
      simp only [albedo_direct_KZ04, halpha]
    simp only [albedo_KZ04, h1]

end KZ04Eval

lemma clip_congr (a b : ℝ) (h : a = b) :
    (Except.ok (if a < 0 then none else some a) : Except String (Option ℝ)) =
      .ok (if b < 0 then none else some b) := by rw [h]

/-- With the degenerate-slope factors `K = 1`, `V = 1`, `M = 0` and equal
local/true direct albedos, every model of the plain chain gives the flat
value. -/
lemma P20_plain_slope_zero (model : String) (r x z : ℝ)
    (hm : model = "flat" ∨ model = "small_slope" ∨ model = "DT" ∨ model = "DM" ∨
      model = "ST" ∨ model = "SM") :
    P20_plain model r 1 1 0 x x z = P20_plain "flat" r 1 1 0 x x z := by
  rcases hm with h | h | h | h | h | h <;> subst h <;>
    simp only [P20_plain] <;> norm_num

/-- With `K = 1 > 0`, `V = 1`, `M = 0` the `"DM"`/`"SM"` top-of-hill
coupling is the identity on the top albedo. -/
lemma P20_coupled_slope_zero (model : String) (r x y z : ℝ)
    (t : Except String (Option ℝ)) (hm : model = "DM" ∨ model = "SM") :
    P20_coupled model r 1 1 0 x y z t = t := by
  rcases hm with h | h <;> subst h <;>
    cases t with
    | error e => rfl
    | ok topt =>
      cases topt with
      | none => simp [P20_coupled]
      | some v => simp [P20_coupled]

/-- At `slope = 0` the three base albedos always come out either as a shared
error or as a triple whose local-direct and direct components agree. -/
lemma P20_albs_slope_zero_form (C : Collab) (wl sza saa aspect ssa : ℝ)
    (fixed : Option ℝ) (imps : Option (List Impurity)) (ni : String ⊕ ℝ) (B g : ℝ)
    (hcos : 0 < cos sza) :
    (∃ m, P20_albs C wl (local_sza sza saa 0 aspect) sza ssa fixed imps ni B g = .error m) ∨
    (∃ x z, P20_albs C wl (local_sza sza saa 0 aspect) sza ssa fixed imps ni B g =
      .ok (x, x, z)) := by
  have hls : local_sza sza saa 0 aspect = arccos (cos sza) := by
    simp [local_sza]
  have hcl : cos (arccos (cos sza)) = cos sza :=
    Real.cos_arccos (Real.neg_one_le_cos sza) (Real.cos_le_one sza)
  have hcomp : (∃ m, (match albedo_direct_KZ04 C wl (local_sza sza saa 0 aspect) ssa imps ni B g,
          albedo_direct_KZ04 C wl sza ssa imps ni B g,
          albedo_diffuse_KZ04 C wl ssa imps ni B g with
        | .error e, _, _ => (.error e : Except String (ℝ × ℝ × ℝ))
        | .ok _, .error e, _ => .error e
        | .ok _, .ok _, .error e => .error e
        | .ok alb_loc_dir, .ok alb_dir, .ok alb_diff => .ok (alb_loc_dir, alb_dir, alb_diff)) =
          .error m) ∨
      (∃ x z, (match albedo_direct_KZ04 C wl (local_sza sza saa 0 aspect) ssa imps ni B g,
          albedo_direct_KZ04 C wl sza ssa imps ni B g,
          albedo_diffuse_KZ04 C wl ssa imps ni B g with
        | .error e, _, _ => (.error e : Except String (ℝ × ℝ × ℝ))
        | .ok _, .error e, _ => .error e
        | .ok _, .ok _, .error e => .error e
        | .ok alb_loc_dir, .ok alb_dir, .ok alb_diff => .ok (alb_loc_dir, alb_dir, alb_diff)) =
          .ok (x, x, z)) := by
    cases hco : compute_co_single_scattering_albedo C wl ssa imps ni B g with
    | error m =>
      have hE1 := albedo_KZ04_error C wl (local_sza sza saa 0 aspect) ssa imps ni B g 0 m hco
      simp only [hE1.1]
      exact Or.inl ⟨m, rfl⟩
    | ok c =>
      have hdl : albedo_direct_KZ04 C wl (local_sza sza saa 0 aspect) ssa imps ni B g =
          .ok (exp (-sqrt (16 / 3 * c / (1 - g)) * (3 / 7) * (1 + 2 * cos sza))) := by
        rw [hls]
        rw [albedo_direct_KZ04_eval C wl (arccos (cos sza)) ssa imps ni B g c
          (by rw [hcl]; exact hcos.le) hco, hcl]
      have hds := albedo_direct_KZ04_eval C wl sza ssa imps ni B g c hcos.le hco
      have hdf := albedo_diffuse_KZ04_eval C wl ssa imps ni B g c hco
      rw [hdl, hds, hdf]
      exact Or.inr ⟨_, _, rfl⟩
  unfold P20_albs
  rcases fixed with _ | a
  · exact hcomp
  · dsimp only
    by_cases ha : a = 0
    · rw [if_pos ha]
      exact hcomp
    · rw [if_neg ha]
      exact Or.inr ⟨a, a, rfl⟩

/-- In the self-shadow case `K = 0`, the non-recursive `"DM"`/`"SM"` chain
raises `NotImplementedError`. -/
lemma P20_plain_selfshadow (model : String) (r V M x y z : ℝ)
    (hm : model = "DM" ∨ model = "SM") :
    P20_plain model r 0 V M x y z = .error "Incorrect in the self-shadow" := by
  rcases hm with h | h <;> subst h <;> simp [P20_plain]

lemma cos_two_thirds_pi : cos (2 * π / 3) = -(1 / 2) := by
  rw [show (2 * π / 3 : ℝ) = π - π / 3 by ring, Real.cos_pi_sub, Real.cos_pi_div_three]

lemma sin_two_thirds_pi : sin (2 * π / 3) = sqrt 3 / 2 := by
  rw [show (2 * π / 3 : ℝ) = π - π / 3 by ring, Real.sin_pi_sub, Real.sin_pi_div_three]

/-- The concrete self-shadow geometry used for C8: sun at `sza = 2π/3`
behind a vertical slope facing the solar azimuth. -/
lemma local_sza_selfshadow : local_sza (2 * π / 3) 0 (π / 2) 0 = arccos (sqrt 3 / 2) := by
  unfold local_sza
  rw [cos_two_thirds_pi, sin_two_thirds_pi, Real.cos_pi_div_two, Real.sin_pi_div_two,
    sub_zero, Real.cos_zero]
  norm_num

lemma local_sza_selfshadow_lt : local_sza (2 * π / 3) 0 (π / 2) 0 < π / 2 := by
  rw [local_sza_selfshadow]
  exact Real.arccos_lt_pi_div_two.mpr (by positivity)

lemma selfshadow_K_eq_zero :
    max (cos (local_sza (2 * π / 3) 0 (π / 2) 0) / cos (2 * π / 3)) 0 = 0 := by
  rw [local_sza_selfshadow, cos_two_thirds_pi]
  have h32 : sqrt 3 ≤ 2 := by
    nlinarith [Real.sq_sqrt (show (0:ℝ) ≤ 3 by norm_num), Real.sqrt_nonneg 3]
  rw [Real.cos_arccos (by nlinarith [Real.sqrt_nonneg 3]) (by nlinarith)]
  rw [show sqrt 3 / 2 / -(1 / 2) = -sqrt 3 by ring]
  exact max_eq_right (neg_nonpos.mpr (Real.sqrt_nonneg 3))

/-! ## Claims -/

/-- Claim C2 — evaluation of the code at the nadir input: for
`θi = θv = 0` and `slope = 0`, `local_viewing_angle` returns local zenith
angles `0` (equal to the true angles) but relative azimuth `arccos 0 = π/2`,
not `0`: the source sets the cosine `mu_az` to zero at a nadir geometry,
while its own comment says it sets the relative azimuth to zero. -/
theorem C2_local_viewing_angle_nadir (phi_i phi_v aspect : ℝ) :
    local_viewing_angle 0 phi_i 0 phi_v 0 aspect = (some 0, some 0, some (π / 2)) := by
  have hpi2 : ¬(π / 2 < (0 : ℝ)) := not_lt.mpr (by positivity)
  unfold local_viewing_angle
  norm_num [Real.arccos_one, Real.arccos_zero, hpi2]

/-- Claim C9: whatever parameter vector the optimizer returns,
`albedo_timeseries_correction` hands back a nonnegative slope and an aspect
in `[0, 2π)`: a negative fitted slope is flipped (with the aspect rotated by
π) and the aspect is reduced modulo 2π. -/
theorem C9_timeseries_normalization (optResult : List ℝ) :
    0 ≤ (albedo_timeseries_correction optResult).2.1 ∧
      0 ≤ (albedo_timeseries_correction optResult).2.2 ∧
      (albedo_timeseries_correction optResult).2.2 < 2 * π := by
  have h2pi : (0 : ℝ) < 2 * π := by positivity
  unfold albedo_timeseries_correction
  by_cases hs : optResult.getD 0 0 < 0 <;>
    simp only [hs, if_pos, if_neg, not_false_iff] <;>
    exact ⟨by simp_all [le_of_lt, not_lt.mp]; try linarith,
           npmod_nonneg _ _ h2pi, npmod_lt _ _ h2pi⟩

/-- Claim C10: the zero-order BRF of Kokhanovsky and Breon 2012 is reciprocal:
exchanging the illumination and viewing zenith angles leaves `brf0_KB12`
unchanged, for either relative-azimuth formalism (and the invalid-formalism
error is likewise symmetric). -/
theorem C10_brf0_KB12_reciprocity (theta_i theta_v phi : ℝ) (RAA_formalism : String) :
    brf0_KB12 theta_i theta_v phi RAA_formalism =
      brf0_KB12 theta_v theta_i phi RAA_formalism := by
  have key : ∀ p, brf0_KB12_val theta_i theta_v p = brf0_KB12_val theta_v theta_i p := by
    intro p
    simp only [brf0_KB12_val]
    have h1 : -cos theta_i * cos theta_v + sin theta_i * sin theta_v * cos p
        = -cos theta_v * cos theta_i + sin theta_v * sin theta_i * cos p := by ring
    rw [h1]
    ring
  unfold brf0_KB12
  split_ifs <;> simp [key]

/-- Claim C7: `compute_co_single_scattering_albedo` raises exactly when the
impurity mapping contains an entry with an unrecognized species name or a
`dust_<formulation>` rejected by the caponi collaborator (both reported as
`"Invalid species"`), or a species needing an explicit density given as a
bare concentration; `"BC"`/`"soot"` without a density do not raise and use
the default density 1270 kg/m³. -/
theorem C7_cossalb_error_characterization (C : Collab) (wl ssa : ℝ)
    (L : List Impurity) (ni : String ⊕ ℝ) (B g : ℝ) :
    ((∃ msg, compute_co_single_scattering_albedo C wl ssa (some L) ni B g = .error msg) ↔
      ∃ e ∈ L, entry_raises C wl e) ∧
    (∀ s c d, invalid_species C wl s →
      impurity_contribution C wl ssa s c d = .error "Invalid species") ∧
    (∀ s c, density_required s →
      impurity_contribution C wl ssa s c none =
        .error ("No default density for the impurities " ++ s)) ∧
    (∀ c : ℝ, impurity_contribution C wl ssa "BC" c none =
      .ok (2 / ssa * c * (6 * π / wl / 1270 * |C.refsoot wl|))) ∧
    (∀ c : ℝ, impurity_contribution C wl ssa "soot" c none =
      .ok (2 / ssa * c * (6 * π / wl / 1270 * |C.refsoot wl|))) := by
  refine ⟨?_, ?_, ?_, ?_, ?_⟩
  · rw [show compute_co_single_scattering_albedo C wl ssa (some L) ni B g
        = cossalb_loop C wl ssa
            (2.0 / (ssa * 917.0) * B *
              (4 * π * (match ni with
                | .inl dataset_name => C.refice wl dataset_name
                | .inr v => v) / wl)) L from rfl]
    rw [cossalb_loop_error_iff]
    exact ⟨fun ⟨e, he, hm⟩ => ⟨e, he, (impurity_contribution_error_iff C wl ssa _ _ _).mp hm⟩,
           fun ⟨e, he, hr⟩ => ⟨e, he, (impurity_contribution_error_iff C wl ssa _ _ _).mpr hr⟩⟩
  · intro s c d hinv
    obtain ⟨hnot, himp⟩ := hinv
    unfold impurity_contribution
    rw [if_neg, if_neg, if_neg, if_neg]
    · by_cases hsw : s.take 5 = "dust_"
      · rw [if_pos hsw, himp hsw]
      · rw [if_neg hsw]
    · exact fun h => hnot (Or.inr (Or.inr (Or.inr (Or.inr h))))
    · exact fun h => hnot (Or.inr (Or.inr (Or.inr (Or.inl h))))
    · exact fun h => hnot (Or.inr (Or.inr (Or.inl h)))
    · exact fun h => hnot (Or.elim h (fun h1 => Or.inl h1) (fun h1 => Or.inr (Or.inl h1)))
  · intro s c hdr
    rcases hdr with h | h | h <;> subst h <;> rfl
  · intro c
    rfl
  · intro c
    rfl

/-- Witness for C7: the characterization instantiated at a concrete impurity
mapping containing one unrecognized species over the trivial collaborators. -/
theorem C7_cossalb_error_characterization_witness :
    ((∃ msg, compute_co_single_scattering_albedo C0 1 1
        (some [("unobtanium", 0, none)]) (.inr 0) 1 0 = .error msg) ↔
      ∃ e ∈ [(("unobtanium" : String), (0:ℝ), (none : Option ℝ))], entry_raises C0 1 e) ∧
    (∀ s c d, invalid_species C0 1 s →
      impurity_contribution C0 1 1 s c d = .error "Invalid species") ∧
    (∀ s c, density_required s →
      impurity_contribution C0 1 1 s c none =
        .error ("No default density for the impurities " ++ s)) ∧
    (∀ c : ℝ, impurity_contribution C0 1 1 "BC" c none =
      .ok (2 / 1 * c * (6 * π / 1 / 1270 * |C0.refsoot 1|))) ∧
    (∀ c : ℝ, impurity_contribution C0 1 1 "soot" c none =
      .ok (2 / 1 * c * (6 * π / 1 / 1270 * |C0.refsoot 1|))) :=
  C7_cossalb_error_characterization C0 1 1 [("unobtanium", 0, none)] (.inr 0) 1 0

/-- Claim C6: for a fixed entry of the impurity mapping (any recognized
species with a resolvable, positive density, or a caponi dust formulation
with nonnegative mass-absorption efficiency), increasing that entry's mass
concentration — all other inputs held equal — never decreases the
co-single-scattering albedo: the impurity contribution is the additive term
`2/SSA · concentration · MAC` with `MAC ≥ 0`. -/
theorem C6_cossalb_monotone_in_concentration (C : Collab) (wl ssa : ℝ)
    (P Q : List Impurity) (s : String) (d : Option ℝ) (c1 c2 a1 a2 : ℝ)
    (ni : String ⊕ ℝ) (B g : ℝ)
    (hwl : 0 < wl) (hssa : 0 < ssa) (hc : c1 ≤ c2)
    (hd : ∀ ρ, d = some ρ → 0 < ρ)
    (hcap : ∀ f v, C.caponi wl f = some v → 0 ≤ v)
    (h1 : compute_co_single_scattering_albedo C wl ssa
            (some (P ++ (s, c1, d) :: Q)) ni B g = .ok a1)
    (h2 : compute_co_single_scattering_albedo C wl ssa
            (some (P ++ (s, c2, d) :: Q)) ni B g = .ok a2) :
    a1 ≤ a2 := by
  simp only [compute_co_single_scattering_albedo] at h1 h2
  exact cossalb_loop_mono_single C wl ssa P Q s d c1 c2 a1 a2 _
    hwl hssa hc hd hcap h1 h2

/-- Witness for C6 at a concrete input: one `"BC"` entry with bare
concentration raised from 0 to 1 over the trivial collaborators. -/
theorem C6_cossalb_monotone_witness :
    (0 : ℝ) ≤ 1 ∧ (0 : ℝ) ≤ (0 : ℝ) :=
  ⟨by norm_num,
    C6_cossalb_monotone_in_concentration C0 1 1 [] [] "BC" none 0 1 0 0
      (.inr 0) 1 0 (by norm_num) (by norm_num) (by norm_num)
      (by intro ρ h; exact Option.noConfusion h)
      (by intro f v h; exact Option.noConfusion h)
      (by norm_num [compute_co_single_scattering_albedo, cossalb_loop,
            impurity_contribution, C0])
      (by norm_num [compute_co_single_scattering_albedo, cossalb_loop,
            impurity_contribution, C0])⟩

/-- Claim C4: with `alpha = 16/3 · cossalb / (1 − g)`, the KZ04 direct albedo
is `exp(−sqrt(alpha)·3/7·(1+2·cos sza))` whenever `cos sza ≥ 0` and a hard
error (`AssertionError`) when `cos sza < 0`; the diffuse albedo is
`exp(−sqrt(alpha))`; and the total albedo is the diffuse-fraction-weighted
sum `(1 − r)·direct + r·diffuse`. -/
theorem C4_KZ04_formulas (C : Collab) (wl sza ssa r : ℝ)
    (imps : Option (List Impurity)) (ni : String ⊕ ℝ) (B g c : ℝ)
    (hok : compute_co_single_scattering_albedo C wl ssa imps ni B g = .ok c) :
    (0 ≤ cos sza →
      albedo_direct_KZ04 C wl sza ssa imps ni B g =
        .ok (exp (-sqrt (16 / 3 * c / (1 - g)) * (3 / 7) * (1 + 2 * cos sza)))) ∧
    (cos sza < 0 →
      albedo_direct_KZ04 C wl sza ssa imps ni B g = .error "assert cos_sza >= 0") ∧
    (albedo_diffuse_KZ04 C wl ssa imps ni B g =
      .ok (exp (-sqrt (16 / 3 * c / (1 - g))))) ∧
    (0 ≤ cos sza →
      albedo_KZ04 C wl sza ssa r imps ni B g =
        .ok ((1 - r) * exp (-sqrt (16 / 3 * c / (1 - g)) * (3 / 7) * (1 + 2 * cos sza)) +
             r * exp (-sqrt (16 / 3 * c / (1 - g))))) := by
  exact ⟨fun hcs => albedo_direct_KZ04_eval C wl sza ssa imps ni B g c hcs hok,
         fun hcs => albedo_direct_KZ04_assert C wl sza ssa imps ni B g c hcs hok,
         albedo_diffuse_KZ04_eval C wl ssa imps ni B g c hok,
         fun hcs => albedo_KZ04_eval C wl sza ssa imps ni B g c r hcs hok⟩

/-- Witness for C4 at a concrete input (no impurities, zero imaginary
refractive index, `sza = 0`). -/
theorem C4_KZ04_formulas_witness :
    albedo_diffuse_KZ04 C0 1 1 none (.inr 0) 1 0 = .ok (exp (-sqrt (16 / 3 * 0 / (1 - 0)))) :=
  ((C4_KZ04_formulas C0 1 0 1 (1/2) none (.inr 0) 1 0 0
      (by norm_num [compute_co_single_scattering_albedo])).2.2.1)

/-- Claim C5: under valid inputs (positive wavelength, SSA and `B`,
`0 ≤ g < 1`, nonnegative imaginary refractive index, nonnegative impurity
concentrations with positive densities, `r_difftot ∈ [0,1]` and
`cos sza ≥ 0`) the co-single-scattering albedo is nonnegative and the
flat-terrain total albedos `albedo_KZ04` and `albedo_M16` lie in `[0,1]`. -/
theorem C5_flat_albedo_unit_interval (C : Collab) (wl sza ssa r niv B g c : ℝ)
    (L : List Impurity)
    (hwl : 0 < wl) (hssa : 0 < ssa) (hB : 0 < B) (hg0 : 0 ≤ g) (hg1 : g < 1)
    (hniv : 0 ≤ niv) (hr0 : 0 ≤ r) (hr1 : r ≤ 1) (hcos : 0 ≤ cos sza)
    (hL : ∀ e ∈ L, 0 ≤ e.2.1 ∧ ∀ ρ, e.2.2 = some ρ → 0 < ρ)
    (hcap : ∀ f v, C.caponi wl f = some v → 0 ≤ v)
    (hok : compute_co_single_scattering_albedo C wl ssa (some L) (.inr niv) B g = .ok c) :
    0 ≤ c ∧
    (∃ a, albedo_KZ04 C wl sza ssa r (some L) (.inr niv) B g = .ok a ∧
      0 ≤ a ∧ a ≤ 1) ∧
    (∃ b, albedo_M16 C wl sza ssa r (some L) (.inr niv) B g = .ok b ∧
      0 ≤ b ∧ b ≤ 1) := by
  have hmix : ∀ e1 e2 : ℝ, 0 ≤ e1 → e1 ≤ 1 → 0 ≤ e2 → e2 ≤ 1 →
      0 ≤ (1 - r) * e1 + r * e2 ∧ (1 - r) * e1 + r * e2 ≤ 1 := by
    intro e1 e2 h10 h11 h20 h21
    constructor
    · have : 0 ≤ (1 - r) * e1 := mul_nonneg (by linarith) h10
      have : 0 ≤ r * e2 := mul_nonneg hr0 h20
      linarith
    · have : (1 - r) * e1 ≤ (1 - r) * 1 := mul_le_mul_of_nonneg_left h11 (by linarith)
      have : r * e2 ≤ r * 1 := mul_le_mul_of_nonneg_left h21 hr0
      linarith
  have hc0 : 0 ≤ c := by
    have hbase : (0:ℝ) ≤ 2.0 / (ssa * 917.0) * B * (4 * π * niv / wl) := by
      have h1 : (0:ℝ) ≤ 2.0 / (ssa * 917.0) := by positivity
      have h2 : (0:ℝ) ≤ 4 * π * niv / wl := by
        apply div_nonneg _ hwl.le
        have := pi_pos
        nlinarith
      exact mul_nonneg (mul_nonneg h1 hB.le) h2
    simp only [compute_co_single_scattering_albedo] at hok
    have := cossalb_loop_le C wl ssa L _ c hwl hssa hL hcap hok
    linarith
  refine ⟨hc0, ?_, ?_⟩
  · -- KZ04 bounds
    have hsq : (0:ℝ) ≤ sqrt (16 / 3 * c / (1 - g)) := sqrt_nonneg _
    have hdirexp : exp (-sqrt (16 / 3 * c / (1 - g)) * (3 / 7) * (1 + 2 * cos sza)) ≤ 1 := by
      rw [exp_le_one_iff]
      have h1 : (0:ℝ) ≤ 1 + 2 * cos sza := by linarith
      nlinarith
    have hdiffexp : exp (-sqrt (16 / 3 * c / (1 - g))) ≤ 1 := by
      rw [exp_le_one_iff]
      linarith
    refine ⟨_, albedo_KZ04_eval C wl sza ssa (some L) (.inr niv) B g c r hcos hok, ?_⟩
    exact hmix _ _ (exp_pos _).le hdirexp (exp_pos _).le hdiffexp
  · -- M16 bounds
    have hdirM : albedo_direct_M16 C wl sza ssa (some L) (.inr niv) B g =
        .ok (exp (-(4 * sqrt ((1 - (1 - c)) / (3 * (1 - (1 - c) * g))) * G sza))) := by
      simp [albedo_direct_M16, hok, Except.map]
    have hdiffM : albedo_diffuse_M16 C wl ssa (some L) (.inr niv) B g =
        .ok (exp (-(4 * sqrt ((1 - (1 - c)) / (3 * (1 - (1 - c) * g)))))) := by
      simp [albedo_diffuse_M16, hok, Except.map]
    have hy : (0:ℝ) ≤ 4 * sqrt ((1 - (1 - c)) / (3 * (1 - (1 - c) * g))) := by positivity
    have hG : 0 ≤ G sza := by
      unfold G
      have : (0:ℝ) ≤ 1 + 2 * cos sza := by linarith
      linarith
    have hdirexp : exp (-(4 * sqrt ((1 - (1 - c)) / (3 * (1 - (1 - c) * g))) * G sza)) ≤ 1 := by
      rw [exp_le_one_iff]
      have := mul_nonneg hy hG
      linarith
    have hdiffexp : exp (-(4 * sqrt ((1 - (1 - c)) / (3 * (1 - (1 - c) * g))))) ≤ 1 := by
      rw [exp_le_one_iff]
      linarith
    refine ⟨(1 - r) * exp (-(4 * sqrt ((1 - (1 - c)) / (3 * (1 - (1 - c) * g))) * G sza)) +
        r * exp (-(4 * sqrt ((1 - (1 - c)) / (3 * (1 - (1 - c) * g))))), ?_, ?_⟩
    · simp only [albedo_M16, hdirM, hdiffM]
    · exact hmix _ _ (exp_pos _).le hdirexp (exp_pos _).le hdiffexp

/-- Witness for C5 at a concrete valid input (no impurities, zero imaginary
refractive index, `sza = 0`, `r = 0`). -/
theorem C5_flat_albedo_unit_interval_witness :
    0 ≤ (0:ℝ) ∧
    (∃ a, albedo_KZ04 C0 1 0 1 0 (some []) (.inr 0) 1 0 = .ok a ∧ 0 ≤ a ∧ a ≤ 1) ∧
    (∃ b, albedo_M16 C0 1 0 1 0 (some []) (.inr 0) 1 0 = .ok b ∧ 0 ≤ b ∧ b ≤ 1) :=
  C5_flat_albedo_unit_interval C0 1 0 1 0 0 1 0 0 []
    (by norm_num) (by norm_num) (by norm_num) (by norm_num) (by norm_num)
    (by norm_num) (by norm_num) (by norm_num) (by norm_num [Real.cos_zero])
    (by intro e he; exact absurd he (List.not_mem_nil e))
    (by intro f v h; exact Option.noConfusion h)
    (by norm_num [compute_co_single_scattering_albedo, cossalb_loop])

/-- Claim C1 (amended): whenever the slope geometry is not self-shadowed
(local solar zenith `< π/2`; for a steeper geometry `albedo_P20_slope`
returns the NaN sentinel while `albedo_KZ04` returns a value) and
`r_difftot ∈ [0,1]` (so the mixed albedo is nonnegative and escapes the
negative-albedo NaN clip), `albedo_P20_slope` with `model="flat"` returns
exactly the unsloped KZ04 total-albedo mixing value, for every slope,
aspect and saa. -/
theorem C1_P20_flat_eq_KZ04 (C : Collab) (wl sza saa ssa r slope aspect : ℝ)
    (measured : Bool) (imps : Option (List Impurity)) (ni : String ⊕ ℝ) (B g : ℝ)
    (hr0 : 0 ≤ r) (hr1 : r ≤ 1)
    (hl : local_sza sza saa slope aspect < π / 2) :
    albedo_P20_slope C wl sza saa ssa r slope aspect "flat" measured none imps ni B g =
      (albedo_KZ04 C wl sza ssa r imps ni B g).map some := by
  have h0 : ¬(local_sza sza saa slope aspect ≥ π / 2 ∨
      local_sza sza saa slope aspect < 0) := by
    push_neg
    exact ⟨hl, local_sza_nonneg sza saa slope aspect⟩
  rw [albedo_P20_slope, if_neg h0]
  cases hco : compute_co_single_scattering_albedo C wl ssa imps ni B g with
  | error m =>
    have hE1 := albedo_KZ04_error C wl (local_sza sza saa slope aspect) ssa imps ni B g r m hco
    have hE2 := albedo_KZ04_error C wl sza ssa imps ni B g r m hco
    simp only [P20_albs, hE1.1, hE2.1, hE2.2.1, hE2.2.2, Except.map]
  | ok c =>
    have hcll : 0 ≤ cos (local_sza sza saa slope aspect) := by
      apply (cos_pos_of_mem_Ioo ⟨?_, hl⟩).le
      have := local_sza_nonneg sza saa slope aspect
      have := pi_pos
      linarith
    have hdl := albedo_direct_KZ04_eval C wl (local_sza sza saa slope aspect) ssa
      imps ni B g c hcll hco
    have hdf := albedo_diffuse_KZ04_eval C wl ssa imps ni B g c hco
    by_cases hcs : 0 ≤ cos sza
    · have hds := albedo_direct_KZ04_eval C wl sza ssa imps ni B g c hcs hco
      have hKZ := albedo_KZ04_eval C wl sza ssa imps ni B g c r hcs hco
      rw [hKZ]
      simp only [P20_albs, hdl, hds, hdf, Except.map]
      have hg2 : ¬(measured = false ∧
          (("flat" : String) = "DM" ∨ ("flat" : String) = "SM")) := by simp
      rw [dif_neg hg2]
      simp only [P20_plain,
        show (("flat" : String) = "small_slope") = False from by simp,
        show (("flat" : String) = "DT") = False from by simp,
        show (("flat" : String) = "DM") = False from by simp,
        show (("flat" : String) = "ST") = False from by simp,
        show (("flat" : String) = "SM") = False from by simp,
        if_false, if_true, eq_self_iff_true]
      rw [if_neg]
      apply not_lt.mpr
      have h1 : (0:ℝ) ≤ (1 - r) *
          exp (-sqrt (16 / 3 * c / (1 - g)) * (3 / 7) * (1 + 2 * cos sza)) :=
        mul_nonneg (by linarith) (exp_pos _).le
      have h2 : (0:ℝ) ≤ r * exp (-sqrt (16 / 3 * c / (1 - g))) :=
        mul_nonneg hr0 (exp_pos _).le
      linarith
    · have hds := albedo_direct_KZ04_assert C wl sza ssa imps ni B g c
        (not_le.mp hcs) hco
      have hKZ : albedo_KZ04 C wl sza ssa r imps ni B g =
          .error "assert cos_sza >= 0" := by
        simp only [albedo_KZ04, hds]
      rw [hKZ]
      simp only [P20_albs, hdl, hds, Except.map]

/-- Witness for the amended C1 at a concrete input (flat slope, nadir sun). -/
theorem C1_P20_flat_eq_KZ04_witness :
    albedo_P20_slope C0 1 0 0 1 (1/2) 0 0 "flat" false none none (.inr 0) 1 0 =
      (albedo_KZ04 C0 1 0 1 (1/2) none (.inr 0) 1 0).map some :=
  C1_P20_flat_eq_KZ04 C0 1 0 0 1 (1/2) 0 0 false none (.inr 0) 1 0
    (by norm_num) (by norm_num)
    (by
      have h : local_sza 0 0 0 0 = 0 := by
        norm_num [local_sza, Real.arccos_one]
      rw [h]
      positivity)

/-- Counterexample to C1 as stated: for `sza = π/3` with a vertical slope
facing away from the sun (`slope = π/2`, `saa = π`, `aspect = 0`), the local
solar zenith reaches `≥ π/2`, so `albedo_P20_slope(model="flat")` returns the
NaN sentinel while the unsloped KZ04 mixing formula returns a value — the
equality does not hold for every slope and aspect. -/
theorem C1_counterexample :
    albedo_P20_slope C0 1 (π/3) π 1 (1/2) (π/2) 0 "flat" false none none (.inr 0) 1 0 ≠
      (albedo_KZ04 C0 1 (π/3) 1 (1/2) none (.inr 0) 1 0).map some := by
  have hl : π / 2 ≤ local_sza (π/3) π (π/2) 0 := by
    unfold local_sza
    have hx : cos (π/3) * cos (π/2) + sin (π/3) * sin (π/2) * cos (π - 0) ≤ 0 := by
      rw [sub_zero, Real.cos_pi_div_two, Real.sin_pi_div_two, Real.cos_pi]
      have h3 : (0:ℝ) ≤ sin (π/3) := by
        rw [Real.sin_pi_div_three]
        positivity
      nlinarith
    exact not_lt.mp (fun h => absurd (Real.arccos_lt_pi_div_two.mp h) (not_lt.mpr hx))
  have hLHS : albedo_P20_slope C0 1 (π/3) π 1 (1/2) (π/2) 0 "flat" false none none
      (.inr 0) 1 0 = .ok none := by
    rw [albedo_P20_slope, if_pos (Or.inl hl)]
  have hco : compute_co_single_scattering_albedo C0 1 1 none (.inr 0) 1 0 =
      .ok (2.0 / ((1:ℝ) * 917.0) * 1 * (4 * π * 0 / 1)) := rfl
  have hcs : (0:ℝ) ≤ cos (π/3) := by
    rw [Real.cos_pi_div_three]
    norm_num
  have hKZ := albedo_KZ04_eval C0 1 (π/3) 1 none (.inr 0) 1 0
    (2.0 / ((1:ℝ) * 917.0) * 1 * (4 * π * 0 / 1)) (1/2) hcs hco
  rw [hLHS, hKZ]
  simp [Except.map]

/-- Claim C3: at `slope = 0` (any aspect and saa) and any sza with
`cos sza > 0`, `albedo_P20_slope` returns the same value for each of the six
model names, with either value of `measured_difftot`, equal to the `"flat"`
result. -/
theorem C3_slope_zero_models_agree (C : Collab) (wl sza saa ssa r aspect : ℝ)
    (model : String) (measured : Bool) (fixed : Option ℝ)
    (imps : Option (List Impurity)) (ni : String ⊕ ℝ) (B g : ℝ)
    (hcos : 0 < cos sza)
    (hm : model = "flat" ∨ model = "small_slope" ∨ model = "DT" ∨ model = "DM" ∨
      model = "ST" ∨ model = "SM") :
    albedo_P20_slope C wl sza saa ssa r 0 aspect model measured fixed imps ni B g =
      albedo_P20_slope C wl sza saa ssa r 0 aspect "flat" measured fixed imps ni B g := by
  have hls : local_sza sza saa 0 aspect = arccos (cos sza) := by
    simp [local_sza]
  have hcl : cos (arccos (cos sza)) = cos sza :=
    Real.cos_arccos (Real.neg_one_le_cos sza) (Real.cos_le_one sza)
  have hl : local_sza sza saa 0 aspect < π / 2 := by
    rw [hls]
    exact Real.arccos_lt_pi_div_two.mpr hcos
  have h0 : ¬(local_sza sza saa 0 aspect ≥ π / 2 ∨ local_sza sza saa 0 aspect < 0) := by
    push_neg
    exact ⟨hl, local_sza_nonneg _ _ _ _⟩
  have hK : max (cos (local_sza sza saa 0 aspect) / cos sza) 0 = 1 := by
    rw [hls, hcl, div_self hcos.ne']
    norm_num
  have hV : (1 + cos (0:ℝ)) / 2 = 1 := by norm_num
  have hM : ∀ x : ℝ, (1 - (1 + cos (0:ℝ)) / 2) * x = 0 := by
    intro x
    norm_num
  have halbs := P20_albs_slope_zero_form C wl sza saa aspect ssa fixed imps ni B g hcos
  have hbase : ∀ m' : String, ∀ meas' : Bool,
      (m' = "flat" ∨ m' = "small_slope" ∨ m' = "DT" ∨ m' = "DM" ∨ m' = "ST" ∨ m' = "SM") →
      ¬(meas' = false ∧ (m' = "DM" ∨ m' = "SM")) →
      albedo_P20_slope C wl sza saa ssa r 0 aspect m' meas' fixed imps ni B g =
        albedo_P20_slope C wl sza saa ssa r 0 aspect "flat" false fixed imps ni B g := by
    intro m' meas' hsix hng
    rw [albedo_P20_slope, if_neg h0]
    conv_rhs => rw [albedo_P20_slope, if_neg h0]
    rcases halbs with ⟨m2, hA⟩ | ⟨x, z, hA⟩
    · rw [hA]
    · rw [hA]
      dsimp only
      rw [dif_neg hng,
        dif_neg (show ¬((false:Bool) = false ∧
          (("flat":String) = "DM" ∨ ("flat":String) = "SM")) from by simp)]
      rw [hK, hM z, hV]
      exact P20_plain_slope_zero m' r x z hsix
  rcases hm with h | h | h | h | h | h
  · subst h
    rfl
  · subst h
    exact (hbase "small_slope" measured (Or.inr (Or.inl rfl)) (by simp)).trans
      (hbase "flat" measured (Or.inl rfl) (by simp)).symm
  · subst h
    exact (hbase "DT" measured (Or.inr (Or.inr (Or.inl rfl))) (by simp)).trans
      (hbase "flat" measured (Or.inl rfl) (by simp)).symm
  · subst h
    cases measured with
    | true =>
      exact (hbase "DM" true (Or.inr (Or.inr (Or.inr (Or.inl rfl)))) (by simp)).trans
        (hbase "flat" true (Or.inl rfl) (by simp)).symm
    | false =>
      rw [albedo_P20_slope, if_neg h0]
      rcases halbs with ⟨m2, hA⟩ | ⟨x, z, hA⟩
      · rw [hA]
        conv_rhs => rw [albedo_P20_slope, if_neg h0, hA]
      · rw [hA]
        dsimp only
        rw [dif_pos ⟨rfl, Or.inl rfl⟩, dropRight_DM, hK, hM z, hV,
          P20_coupled_slope_zero "DM" r x x z _ (Or.inl rfl)]
        exact hbase "DT" false (Or.inr (Or.inr (Or.inl rfl))) (by simp)
  · subst h
    exact (hbase "ST" measured (Or.inr (Or.inr (Or.inr (Or.inr (Or.inl rfl))))) (by simp)).trans
      (hbase "flat" measured (Or.inl rfl) (by simp)).symm
  · subst h
    cases measured with
    | true =>
      exact (hbase "SM" true (Or.inr (Or.inr (Or.inr (Or.inr (Or.inr rfl))))) (by simp)).trans
        (hbase "flat" true (Or.inl rfl) (by simp)).symm
    | false =>
      rw [albedo_P20_slope, if_neg h0]
      rcases halbs with ⟨m2, hA⟩ | ⟨x, z, hA⟩
      · rw [hA]
        conv_rhs => rw [albedo_P20_slope, if_neg h0, hA]
      · rw [hA]
        dsimp only
        rw [dif_pos ⟨rfl, Or.inr rfl⟩, dropRight_SM, hK, hM z, hV,
          P20_coupled_slope_zero "SM" r x x z _ (Or.inr rfl)]
        exact hbase "ST" false (Or.inr (Or.inr (Or.inr (Or.inr (Or.inl rfl))))) (by simp)

/-- Witness for C3 at a concrete input (`sza = 0`, model `"DM"` with the
recursive branch, fixed flat albedo 1). -/
theorem C3_slope_zero_models_agree_witness :
    albedo_P20_slope C0 1 0 0 1 (1/2) 0 0 "DM" false (some 1) none (.inr 0) 1 0 =
      albedo_P20_slope C0 1 0 0 1 (1/2) 0 0 "flat" false (some 1) none (.inr 0) 1 0 :=
  C3_slope_zero_models_agree C0 1 0 0 1 (1/2) 0 "DM" false (some 1) none (.inr 0) 1 0
    (by norm_num) (Or.inr (Or.inr (Or.inr (Or.inl rfl))))

/-- Claim C8 (amended): with `measured_difftot = true` (the non-recursive
branch), calling `albedo_P20_slope` with model `"DM"` or `"SM"` in the
self-shadow case — `K = max(cos(local sza)/cos(sza), 0) = 0` (with
`cos sza ≠ 0`, so the quotient is well defined) while the local SZA is still
valid — raises a hard error rather than returning a value or the NaN
sentinel.  With `measured_difftot = false` the claim fails: see the
counterexample. -/
theorem C8_selfshadow_error (C : Collab) (wl sza saa ssa r slope aspect : ℝ)
    (model : String) (fixed : Option ℝ) (imps : Option (List Impurity))
    (ni : String ⊕ ℝ) (B g : ℝ)
    (hm : model = "DM" ∨ model = "SM")
    (hl : local_sza sza saa slope aspect < π / 2)
    (hK : max (cos (local_sza sza saa slope aspect) / cos sza) 0 = 0)
    (hcs : cos sza ≠ 0) :
    ∃ msg, albedo_P20_slope C wl sza saa ssa r slope aspect model true fixed imps ni B g =
      .error msg := by
  have h0 : ¬(local_sza sza saa slope aspect ≥ π / 2 ∨
      local_sza sza saa slope aspect < 0) := by
    push_neg
    exact ⟨hl, local_sza_nonneg sza saa slope aspect⟩
  rw [albedo_P20_slope, if_neg h0]
  cases hA : P20_albs C wl (local_sza sza saa slope aspect) sza ssa fixed imps ni B g with
  | error e => exact ⟨e, rfl⟩
  | ok albs =>
    obtain ⟨a, b, c⟩ := albs
    dsimp only
    rw [dif_neg (show ¬((true:Bool) = false ∧ (model = "DM" ∨ model = "SM")) from by simp),
      hK]
    exact ⟨_, P20_plain_selfshadow model r _ _ a b c hm⟩

/-- Witness for the amended C8 at the concrete self-shadow geometry
(`sza = 2π/3`, vertical slope facing the sun's azimuth, fixed flat albedo 1,
model `"DM"`, `measured_difftot = true`). -/
theorem C8_selfshadow_error_witness :
    ∃ msg, albedo_P20_slope C0 1 (2 * π / 3) 0 1 (1/2) (π / 2) 0 "DM" true (some 1)
      none (.inr 0) 1 0 = .error msg :=
  C8_selfshadow_error C0 1 (2 * π / 3) 0 1 (1/2) (π / 2) 0 "DM" (some 1) none (.inr 0) 1 0
    (Or.inl rfl) local_sza_selfshadow_lt selfshadow_K_eq_zero
    (by rw [cos_two_thirds_pi]; norm_num)

/-- Counterexample to C8 as stated: at the same self-shadow geometry
(`K = 0`, valid local SZA) but with `measured_difftot = false` — the default
of the source — model `"DM"` does not raise: it returns the fallback value
`V·alb_diff/(1+M) = 1/3`. -/
theorem C8_counterexample :
    max (cos (local_sza (2 * π / 3) 0 (π / 2) 0) / cos (2 * π / 3)) 0 = 0 ∧
    local_sza (2 * π / 3) 0 (π / 2) 0 < π / 2 ∧
    albedo_P20_slope C0 1 (2 * π / 3) 0 1 (1/2) (π / 2) 0 "DM" false (some 1)
      none (.inr 0) 1 0 = .ok (some (1/3)) := by
  have h0 : ¬(local_sza (2 * π / 3) 0 (π / 2) 0 ≥ π / 2 ∨
      local_sza (2 * π / 3) 0 (π / 2) 0 < 0) := by
    push_neg
    exact ⟨local_sza_selfshadow_lt, local_sza_nonneg _ _ _ _⟩
  have hA : P20_albs C0 1 (local_sza (2 * π / 3) 0 (π / 2) 0) (2 * π / 3) 1 (some 1)
      none (.inr 0) 1 0 = .ok (1, 1, 1) := by
    unfold P20_albs
    dsimp only
    rw [if_neg one_ne_zero]
  have hV : (1 + cos (π / 2)) / 2 = (1/2 : ℝ) := by
    rw [Real.cos_pi_div_two]
    norm_num
  have htop : albedo_P20_slope C0 1 (2 * π / 3) 0 1 (1/2) (π / 2) 0 "DT" false (some 1)
      none (.inr 0) 1 0 = .ok (some (1/8)) := by
    rw [albedo_P20_slope, if_neg h0, hA]
    dsimp only
    rw [dif_neg (show ¬((false:Bool) = false ∧
        (("DT":String) = "DM" ∨ ("DT":String) = "SM")) from by simp)]
    rw [selfshadow_K_eq_zero, hV]
    simp only [P20_plain,
      show (("DT":String) = "small_slope") = False from by simp,
      show (("DT":String) = "DT") = True from by simp,
      if_false, if_true]
    norm_num
  refine ⟨selfshadow_K_eq_zero, local_sza_selfshadow_lt, ?_⟩
  rw [albedo_P20_slope, if_neg h0, hA]
  dsimp only
  rw [dif_pos ⟨rfl, Or.inl rfl⟩, dropRight_DM, htop, selfshadow_K_eq_zero, hV]
  simp only [P20_coupled, show (("DM":String) = "DM") = True from by simp, if_true]
  norm_num

end

end Snowoptics
